import Mathlib

/-!
Verification development for the boxcars replay-container parser
(src/parser.rs and src/lib.rs).

The container façade (`Parser::parse`, `Parser::crc_section`,
`Parser::parse_body`, the footer-table decoders and `ParserBuilder`) is
embedded directly from src/parser.rs.  The modules the façade calls that
are not part of the provided sources (core_parser.rs, errors.rs, crc.rs,
header.rs, models.rs, network.rs, parsing_utils.rs) are modelled from the
specification; each such definition carries a doc comment saying so.  The
CRC algorithm and the network decoder are abstracted as explicit function
parameters, so every theorem about them holds for the actual
implementations as well.

Bytes are modelled as `Nat` (a real input satisfies `b < 256`); machine
casts are made explicit (`i32ToUsize` is the 64-bit sign-extending cast
written `network_size as usize` in the source).
-/

namespace Boxcars

/-- From src/parser.rs: the CRC-check policy enum. -/
inductive CrcCheck where
  | Always
  | Never
  | OnError
deriving DecidableEq

/-- From src/parser.rs: the network-parse policy enum. -/
inductive NetworkParse where
  | Always
  | Never
  | IgnoreOnError
deriving DecidableEq

/-- Modelled from the spec: the error kinds of errors.rs (absent from src),
taken from the spec's error taxonomy (spec section 7) plus the message
formats asserted by the tests in src/parser.rs.  `outOfFuel` is an artifact
of the fuel-based model of the recursive property-tree decoder; it is never
produced on inputs the real decoder accepts or rejects in bounded time. -/
inductive ParseError where
  | insufficient (needed available : Nat)
  | listTooLarge (size : Nat)
  | unexpectedStringSize (size : Int)
  | unknownProperty (tag : String)
  | crcMismatch (expected actual : Nat)
  | outOfFuel
deriving DecidableEq

/-- Modelled from the spec: display strings of errors.rs.  The
`crcMismatch` and `listTooLarge` texts are fixed by the assertions in the
src/parser.rs tests; the remaining texts follow the spec's taxonomy. -/
def ParseError.display : ParseError → String
  | .insufficient n h => "Insufficient data. Needed " ++ toString n ++ " bytes, but only " ++ toString h ++ " bytes left"
  | .listTooLarge n => "list of size " ++ toString n ++ " is too large"
  | .unexpectedStringSize n => "Unexpected size for string: " ++ toString n
  | .unknownProperty t => "Did not expect a property of: " ++ t
  | .crcMismatch e a => "Crc mismatch. Expected " ++ toString e ++ " but received " ++ toString a
  | .outOfFuel => "property tree fuel exhausted"

/-- Modelled from the spec: the `failure`-crate error value used in
src/parser.rs.  A `ctx` node displays its own message and keeps the
underlying error reachable as its cause, exactly how
`failure::Fail::context` behaves at the call sites in src/parser.rs. -/
inductive Err where
  | base (e : ParseError)
  | ctx (msg : String) (cause : Err)
deriving DecidableEq

/-- Display of an error value: a context shows its message, a bare parse
error shows its own display (mirrors `format!("{}", err)` in the tests). -/
def Err.display : Err → String
  | .base e => e.display
  | .ctx m _ => m

/-- Cause of an error value (mirrors `err.as_fail().cause()`). -/
def Err.cause : Err → Option Err
  | .base _ => none
  | .ctx _ c => some c

/-- Top-level display of a parse result, `none` on success. -/
def displayOf {α : Type} : Except Err α → Option String
  | .error e => some e.display
  | .ok _ => none

/-- Cause of the top-level error of a parse result. -/
def causeOf {α : Type} : Except Err α → Option Err
  | .error e => e.cause
  | .ok _ => none

/-- Modelled from the spec: the byte-reader state of core_parser.rs
(absent from src): the unread suffix of the input plus the number of bytes
consumed so far (`bytes_read`). -/
structure CoreP where
  rest : List Nat
  bytesRead : Nat
deriving DecidableEq

/-- Modelled from the spec: little-endian byte-list to unsigned integer
(parsing_utils.rs is absent from src). -/
def leNat (bs : List Nat) : Nat := bs.foldr (fun b acc => b + 256 * acc) 0

/-- Modelled from the spec: `le_i32` of parsing_utils.rs, two's-complement
signed interpretation of four little-endian bytes. -/
def le_i32 (bs : List Nat) : Int :=
  if leNat bs < 2 ^ 31 then (leNat bs : Int) else (leNat bs : Int) - 2 ^ 32

/-- Modelled from the spec: signed interpretation of eight little-endian
bytes (`QWordProperty` payloads). -/
def le_i64 (bs : List Nat) : Int :=
  if leNat bs < 2 ^ 63 then (leNat bs : Int) else (leNat bs : Int) - 2 ^ 64

/-- The Rust cast `x as usize` on a 64-bit platform for `x : i32`:
reduction of the sign-extended value modulo `2 ^ 64`. -/
def i32ToUsize (x : Int) : Nat := (x % (2 ^ 64 : Int)).toNat

/-- The Rust cast `x as u32` for `x : i32`: reduction modulo `2 ^ 32`. -/
def i32ToU32 (x : Int) : Nat := (x % (2 ^ 32 : Int)).toNat

/-- Core reader computations: state transformers that either produce a
value and the advanced state, or a `ParseError` together with the state at
the failure point (the real reader reports `bytes_read()` at that point). -/
abbrev MP (α : Type) : Type := CoreP → Except (ParseError × CoreP) (α × CoreP)

/-- Sequencing of core reader computations. -/
def mpBind {α β : Type} (m : MP α) (f : α → MP β) : MP β := fun st =>
  match m st with
  | .error e => .error e
  | .ok (a, st1) => f a st1

/-- A core reader computation returning a value without reading. -/
def mpPure {α : Type} (a : α) : MP α := fun st => .ok (a, st)

/-- Modelled from the spec: `CoreParser::take(size, f)` — borrow the next
`size` bytes, decode them with `f` and advance; `Insufficient` on a short
read (core_parser.rs is absent from src). -/
def take {α : Type} (n : Nat) (f : List Nat → α) : MP α := fun st =>
  if n ≤ st.rest.length then
    .ok (f (st.rest.take n), ⟨st.rest.drop n, st.bytesRead + n⟩)
  else
    .error (.insufficient n st.rest.length, st)

/-- Modelled from the spec: `CoreParser::view_data(size)` — borrow the next
`size` bytes without advancing (used for the CRC windows). -/
def view_data (n : Nat) : MP (List Nat) := fun st =>
  if n ≤ st.rest.length then
    .ok (st.rest.take n, st)
  else
    .error (.insufficient n st.rest.length, st)

/-- Iterating a decoder a fixed number of times (the loop inside
`list_of`). -/
def listIter {α : Type} (f : MP α) : Nat → MP (List α)
  | 0 => fun st => .ok ([], st)
  | n + 1 => fun st =>
    match f st with
    | .error e => .error e
    | .ok (a, st1) =>
      match listIter f n st1 with
      | .error e => .error e
      | .ok (as_, st2) => .ok (a :: as_, st2)

/-- Modelled from the spec: `CoreParser::list_of(f)` — read a `u32`
element count, refuse counts above `2 ^ 20`, then run `f` that many
times. -/
def list_of {α : Type} (f : MP α) : MP (List α) := fun st =>
  match take 4 leNat st with
  | .error e => .error e
  | .ok (count, st1) =>
    if count > 2 ^ 20 then .error (.listTooLarge count, st1)
    else listIter f count st1

/-- Modelled from the spec: pairing of UTF-16LE code units for
negative-prefix strings. -/
def decodeU16 : List Nat → List Nat
  | a :: b :: rest => (a + 256 * b) :: decodeU16 rest
  | _ => []

/-- Modelled from the spec: `CoreParser::parse_text` — a length-prefixed,
null-terminated string.  A positive `i32` prefix is a byte count
(ASCII), a negative prefix a UTF-16 character count, zero the empty
string; prefixes of magnitude above `10 * 2 ^ 20` are refused. -/
def parse_text : MP String := fun st =>
  match take 4 le_i32 st with
  | .error e => .error e
  | .ok (p, st1) =>
    if p = 0 then .ok ("", st1)
    else if 0 < p then
      if p > 10 * 2 ^ 20 then .error (.unexpectedStringSize p, st1)
      else
        match take p.toNat (fun bs => bs) st1 with
        | .error e => .error e
        | .ok (bs, st2) => .ok (String.mk ((bs.take (p.toNat - 1)).map Char.ofNat), st2)
    else
      if p < -(10 * 2 ^ 20) then .error (.unexpectedStringSize p, st1)
      else
        match take (2 * (-p).toNat) (fun bs => bs) st1 with
        | .error e => .error e
        | .ok (bs, st2) =>
          .ok (String.mk (((decodeU16 bs).take ((-p).toNat - 1)).map Char.ofNat), st2)

/-- Modelled from the spec: `CoreParser::parse_str`; the source
distinguishes a borrowed-ASCII variant from `parse_text`, but both follow
the same string discipline of the spec. -/
def parse_str : MP String := parse_text

/-- Modelled from the spec: `CoreParser::text_list`, a length-prefixed
list of strings. -/
def text_list : MP (List String) := list_of parse_text

/-- Modelled from the spec: models.rs `KeyFrame` (f32 time kept as raw
little-endian bits, i32 frame, i32 file position). -/
structure KeyFrame where
  time : Nat
  frame : Int
  position : Int
deriving DecidableEq

/-- Modelled from the spec: models.rs `DebugInfo`. -/
structure DebugInfo where
  frame : Int
  user : String
  text : String
deriving DecidableEq

/-- Modelled from the spec: models.rs `TickMark`. -/
structure TickMark where
  description : String
  frame : Int
deriving DecidableEq

/-- Modelled from the spec: models.rs `ClassIndex`. -/
structure ClassIndex where
  class_name : String
  index : Int
deriving DecidableEq

/-- Modelled from the spec: models.rs `CacheProp`. -/
structure CacheProp where
  object_ind : Int
  stream_id : Int
deriving DecidableEq

/-- Modelled from the spec: models.rs `ClassNetCache`. -/
structure ClassNetCache where
  object_ind : Int
  parent_id : Int
  cache_id : Int
  properties : List CacheProp
deriving DecidableEq

/-- From src/parser.rs: the intermediate `ReplayBody` value produced by
`Parser::parse_body`. -/
structure ReplayBody where
  levels : List String
  keyframes : List KeyFrame
  debug_info : List DebugInfo
  tick_marks : List TickMark
  packages : List String
  objects : List String
  names : List String
  class_indices : List ClassIndex
  net_cache : List ClassNetCache
  network_data : List Nat
deriving DecidableEq

/-- Modelled from the spec: the property-tree value variants of the
header (header.rs and models.rs are absent from src); spec section 4.3. -/
inductive Property where
  | intP (v : Int)
  | qword (v : Int)
  | floatP (bits : Nat)
  | boolP (v : Nat)
  | strP (s : String)
  | nameP (s : String)
  | byteP (kind value : String)
  | arrayP (rows : List (List (String × Property)))
  | structP (fields : List (String × Property))

/-- Modelled from the spec: the decoded header value (header.rs absent
from src): versions, optional net version, game type, ordered property
tree. -/
structure PHeader where
  major_version : Nat
  minor_version : Nat
  net_version : Option Nat
  game_type : String
  properties : List (String × Property)

/-- Modelled from the spec: the recursive property-tree decoder of
header.rs (spec section 4.3, steps 1-5).  `fuel` bounds the recursion;
each entry consumes at least the four bytes of its key's length prefix,
so fuel `1 + remaining bytes` never runs out before the input does.  An
`ArrayProperty` payload is a `u32` count of nested property trees, read
through `list_of`; a `StructProperty` payload is one nested tree. -/
def parseProps : Nat → MP (List (String × Property))
  | 0 => fun st => .error (.outOfFuel, st)
  | n + 1 =>
    mpBind parse_text fun key =>
      if key = "None" then mpPure []
      else
        mpBind parse_text fun tag =>
        mpBind (take 8 leNat) fun _size =>
        mpBind (take 4 leNat) fun _index =>
        mpBind
          (match tag with
           | "IntProperty" => mpBind (take 4 le_i32) fun v => mpPure (Property.intP v)
           | "QWordProperty" => mpBind (take 8 le_i64) fun v => mpPure (Property.qword v)
           | "FloatProperty" => mpBind (take 4 leNat) fun v => mpPure (Property.floatP v)
           | "BoolProperty" => mpBind (take 1 (fun bs => bs.headD 0)) fun v => mpPure (Property.boolP v)
           | "StrProperty" => mpBind parse_text fun s => mpPure (Property.strP s)
           | "NameProperty" => mpBind parse_text fun s => mpPure (Property.nameP s)
           | "ByteProperty" => mpBind parse_text fun k => mpBind parse_text fun v => mpPure (Property.byteP k v)
           | "ArrayProperty" => mpBind (list_of (parseProps n)) fun rows => mpPure (Property.arrayP rows)
           | "StructProperty" => mpBind (parseProps n) fun fs => mpPure (Property.structP fs)
           | other => fun st => .error (.unknownProperty other, st))
          fun v =>
        mpBind (parseProps n) fun restProps =>
        mpPure ((key, v) :: restProps)

/-- Modelled from the spec: `header::parse_header` (header.rs absent from
src): `major_version: u32`, `minor_version: u32`, `net_version` when the
version gate `major ≥ 868 ∧ minor ≥ 18` holds, the game-type string and
the property tree. -/
def parse_header : MP PHeader := fun st0 =>
  (mpBind (take 4 leNat) fun major =>
   mpBind (take 4 leNat) fun minor =>
   mpBind
     (if 868 ≤ major ∧ 18 ≤ minor then
        mpBind (take 4 leNat) fun v => mpPure (some v)
      else mpPure none)
     fun netv =>
   mpBind parse_text fun gt =>
   mpBind (parseProps (st0.rest.length + 1)) fun props =>
   mpPure (⟨major, minor, netv, gt, props⟩ : PHeader)) st0

/-- Modelled from the spec: the network decoder's output type
(network.rs is absent from src); its content is irrelevant to the
container claims, which quantify over the decoder itself. -/
structure NetworkFrames where
  raw : List Nat
deriving DecidableEq

/-- From src/parser.rs `Parser::err_str`: the context message attached to
each body-decoding step, reporting the section description and the
`bytes_read()` offset at the failure point. -/
def errStr (desc : String) (offset : Nat) (e : ParseError) : String :=
  "Could not decode replay " ++ desc ++ " at offset (" ++ toString offset ++ "): " ++ e.display

/-- The `with_context(|e| self.err_str(desc, e))` pattern of
src/parser.rs: on failure, wrap the core error in a context whose message
is `errStr` at the failure offset, keeping the original reachable as the
cause. -/
def pstep {α : Type} (desc : String) (m : MP α) (st : CoreP) : Except Err (α × CoreP) :=
  match m st with
  | .error (e, stE) => .error (.ctx (errStr desc stE.bytesRead e) (.base e))
  | .ok r => .ok r

/-- Sequencing at the wrapped-error level (the `?` operator of
src/parser.rs). -/
def ebind {α β : Type} (m : Except Err (α × CoreP)) (f : α → CoreP → Except Err (β × CoreP)) :
    Except Err (β × CoreP) :=
  match m with
  | .error e => .error e
  | .ok (a, st) => f a st

/-- Conversion of a bare core error into the rich error type (the header
decoder's errors reach `crc_section` as `failure::Error` values). -/
def toErr {α : Type} (r : Except (ParseError × CoreP) (α × CoreP)) : Except Err (α × CoreP) :=
  match r with
  | .error (e, _) => .error (.base e)
  | .ok x => .ok x

/-- One tick-mark record inside `Parser::parse_tickmarks`: a
length-prefixed string description followed by an i32 frame. -/
def tickElem : MP TickMark :=
  mpBind parse_text fun d => mpBind (take 4 le_i32) fun f => mpPure (⟨d, f⟩ : TickMark)

/-- From src/parser.rs `Parser::parse_tickmarks`: a list of
(length-prefixed string description, i32 frame) records. -/
def parse_tickmarks : MP (List TickMark) := list_of tickElem

/-- One keyframe record inside `Parser::parse_keyframe`: f32 time (raw
bits), i32 frame, i32 file position. -/
def kfElem : MP KeyFrame :=
  mpBind (take 4 leNat) fun t =>
  mpBind (take 4 le_i32) fun fr =>
  mpBind (take 4 le_i32) fun pos => mpPure (⟨t, fr, pos⟩ : KeyFrame)

/-- From src/parser.rs `Parser::parse_keyframe`: a list of
(f32 time, i32 frame, i32 file position) records. -/
def parse_keyframe : MP (List KeyFrame) := list_of kfElem

/-- From src/parser.rs `Parser::parse_debuginfo`. -/
def parse_debuginfo : MP (List DebugInfo) :=
  list_of (mpBind (take 4 le_i32) fun fr =>
           mpBind parse_text fun u =>
           mpBind parse_text fun t => mpPure (⟨fr, u, t⟩ : DebugInfo))

/-- From src/parser.rs `Parser::parse_classindex`. -/
def parse_classindex : MP (List ClassIndex) :=
  list_of (mpBind parse_str fun c => mpBind (take 4 le_i32) fun i => mpPure (⟨c, i⟩ : ClassIndex))

/-- From src/parser.rs `Parser::parse_classcache`. -/
def parse_classcache : MP (List ClassNetCache) :=
  list_of (mpBind (take 4 le_i32) fun oi =>
           mpBind (take 4 le_i32) fun pid =>
           mpBind (take 4 le_i32) fun cid =>
           mpBind (list_of (mpBind (take 4 le_i32) fun o =>
                            mpBind (take 4 le_i32) fun s => mpPure (⟨o, s⟩ : CacheProp)))
             fun props => mpPure (⟨oi, pid, cid, props⟩ : ClassNetCache))

/-- The footer tables read by `Parser::parse_body` after the network-data
slice (grouping of the last seven steps of the source function). -/
structure Footer where
  debug_info : List DebugInfo
  tick_marks : List TickMark
  packages : List String
  objects : List String
  names : List String
  class_indices : List ClassIndex
  net_cache : List ClassNetCache
deriving DecidableEq

/-- From src/parser.rs `Parser::parse_body`, steps after the network-data
slice: debug info, tick marks, packages, objects, names, class indices
and net cache, each wrapped with its context description. -/
def parseFooter (st : CoreP) : Except Err (Footer × CoreP) :=
  ebind (pstep "debug info" parse_debuginfo st) fun dbg st =>
  ebind (pstep "tickmarks" parse_tickmarks st) fun ticks st =>
  ebind (pstep "packages" text_list st) fun packages st =>
  ebind (pstep "objects" text_list st) fun objects st =>
  ebind (pstep "names" text_list st) fun names st =>
  ebind (pstep "class index" parse_classindex st) fun ci st =>
  ebind (pstep "net cache" parse_classcache st) fun nc st =>
  .ok (⟨dbg, ticks, packages, objects, names, ci, nc⟩, st)

/-- From src/parser.rs `Parser::parse_body`: levels, keyframes, the
`network_size: i32` prefix, the borrowed network-data slice of
`network_size as usize` bytes (64-bit sign-extending cast), then the
footer tables. -/
def parse_body (st : CoreP) : Except Err (ReplayBody × CoreP) :=
  ebind (pstep "levels" text_list st) fun levels st =>
  ebind (pstep "keyframes" parse_keyframe st) fun keyframes st =>
  ebind (pstep "network size" (take 4 le_i32) st) fun network_size st =>
  ebind (pstep "network data" (take (i32ToUsize network_size) (fun d => d)) st) fun network_data st =>
  ebind (parseFooter st) fun ft st =>
  .ok (⟨levels, keyframes, ft.debug_info, ft.tick_marks, ft.packages, ft.objects,
        ft.names, ft.class_indices, ft.net_cache, network_data⟩, st)

/-- Follows the claim's words, for comparison with `parse_body`: the body
decoder said to read `network_size` as an UNSIGNED 32-bit little-endian
integer and take exactly that many bytes; everything else as in
`parse_body`. -/
def parse_body_claimU32 (st : CoreP) : Except Err (ReplayBody × CoreP) :=
  ebind (pstep "levels" text_list st) fun levels st =>
  ebind (pstep "keyframes" parse_keyframe st) fun keyframes st =>
  ebind (pstep "network size" (take 4 leNat) st) fun network_size st =>
  ebind (pstep "network data" (take network_size (fun d => d)) st) fun network_data st =>
  ebind (parseFooter st) fun ft st =>
  .ok (⟨levels, keyframes, ft.debug_info, ft.tick_marks, ft.packages, ft.objects,
        ft.names, ft.class_indices, ft.net_cache, network_data⟩, st)

/-- From src/parser.rs `Parser::crc_section`: run the section decoder,
then apply the configured CRC policy.  `crcFun` abstracts `calc_crc`
(crc.rs is absent from src); the Boolean of the result records whether
`calc_crc` was invoked.  The match arms are in source order. -/
def crcSection {α : Type} (cc : CrcCheck) (crcFun : List Nat → Nat) (window : List Nat)
    (stored : Nat) (sectionName : String) (res : Except Err α) : Except Err α × Bool :=
  match cc, res with
  | .Always, res =>
    let actual := crcFun window
    (if actual ≠ stored then .error (.base (.crcMismatch stored actual)) else res, true)
  | .OnError, .error e =>
    let actual := crcFun window
    (if actual ≠ stored then
       .error (.ctx ("Failed to parse " ++ sectionName ++ " and crc check failed. Replay is corrupt") e)
     else .error e, true)
  | .OnError, .ok s => (.ok s, false)
  | .Never, res => (res, false)

/-- Everything `Parser::parse` computes before the network-parse policy
is applied: both framed sections with their CRC policy. -/
structure Sections where
  header_size : Int
  header_crc : Nat
  pheader : PHeader
  content_size : Int
  content_crc : Nat
  body : ReplayBody

/-- A framing step of `Parser::parse`: on failure the error propagates
with no CRC computed in the remainder, on success the continuation
runs. -/
def stepThen {α β : Type} (m : Except Err (α × CoreP))
    (f : α → CoreP → Except Err β × Nat) : Except Err β × Nat :=
  match m with
  | .error e => (.error e, 0)
  | .ok (a, st) => f a st

/-- Accounting of one section's CRC-invocation flag on top of the rest
of the run. -/
def addCrc {β : Type} (b : Bool) (p : Except Err β × Nat) : Except Err β × Nat :=
  (p.fst, b.toNat + p.snd)

/-- A CRC-checked section step of `Parser::parse`: the `crc_section`
outcome either aborts the parse or hands the decoded value on, its
invocation flag added to the count either way. -/
def crcThen {α β : Type} (c : Except Err (α × CoreP) × Bool)
    (f : α → CoreP → Except Err β × Nat) : Except Err β × Nat :=
  match c with
  | (.error e, b) => (.error e, b.toNat)
  | (.ok (a, st), b) => addCrc b (f a st)

/-- From src/parser.rs `Parser::parse`, first half: the outer container
framing `[size][crc][bytes]` for the header and the body, with
`crc_section` applied to each window.  The second component counts
`calc_crc` invocations. -/
def parseSections (crcFun : List Nat → Nat) (cc : CrcCheck) (data : List Nat) :
    Except Err Sections × Nat :=
  stepThen (pstep "header size" (take 4 le_i32) ⟨data, 0⟩) fun header_size st1 =>
  stepThen (pstep "header crc" (take 4 le_i32) st1) fun hcrc st2 =>
  stepThen (pstep "header data" (view_data (i32ToUsize header_size)) st2) fun header_data st3 =>
  crcThen (crcSection cc crcFun header_data (i32ToU32 hcrc) "header"
      (toErr (parse_header st3))) fun pheader st4 =>
  stepThen (pstep "content size" (take 4 le_i32) st4) fun content_size st5 =>
  stepThen (pstep "content crc" (take 4 le_i32) st5) fun ccrc st6 =>
  stepThen (pstep "content data" (view_data (i32ToUsize content_size)) st6) fun content_data st7 =>
  crcThen (crcSection cc crcFun content_data (i32ToU32 ccrc) "body" (parse_body st7))
    fun body _st8 =>
  (.ok ⟨header_size, i32ToU32 hcrc, pheader, content_size, i32ToU32 ccrc, body⟩, 0)

/-- From src/parser.rs: the final `Replay` value assembled by
`Parser::parse` (field list per models.rs, modelled from the spec). -/
structure Replay where
  header_size : Int
  header_crc : Nat
  major_version : Nat
  minor_version : Nat
  net_version : Option Nat
  game_type : String
  properties : List (String × Property)
  content_size : Int
  content_crc : Nat
  network_frames : Option NetworkFrames
  levels : List String
  keyframes : List KeyFrame
  debug_info : List DebugInfo
  tick_marks : List TickMark
  packages : List String
  objects : List String
  names : List String
  class_indices : List ClassIndex
  net_cache : List ClassNetCache

/-- Assembly of the `Replay` literal at the end of `Parser::parse`. -/
def mkReplay (s : Sections) (nf : Option NetworkFrames) : Replay :=
  { header_size := s.header_size
    header_crc := s.header_crc
    major_version := s.pheader.major_version
    minor_version := s.pheader.minor_version
    net_version := s.pheader.net_version
    game_type := s.pheader.game_type
    properties := s.pheader.properties
    content_size := s.content_size
    content_crc := s.content_crc
    network_frames := nf
    levels := s.body.levels
    keyframes := s.body.keyframes
    debug_info := s.body.debug_info
    tick_marks := s.body.tick_marks
    packages := s.body.packages
    objects := s.body.objects
    names := s.body.names
    class_indices := s.body.class_indices
    net_cache := s.body.net_cache }

/-- From src/parser.rs `Parser::parse`: both framed sections, then the
network-parse policy.  `netDecode` abstracts `network::parse` (network.rs
is absent from src).  The second component counts `calc_crc`
invocations. -/
def parse (crcFun : List Nat → Nat) (netDecode : PHeader → ReplayBody → Except Err NetworkFrames)
    (cc : CrcCheck) (np : NetworkParse) (data : List Nat) : Except Err Replay × Nat :=
  match parseSections crcFun cc data with
  | (.error e, n) => (.error e, n)
  | (.ok s, n) =>
    match np with
    | .Always =>
      (match netDecode s.pheader s.body with
       | .error e => .error e
       | .ok v => .ok (mkReplay s (some v)), n)
    | .IgnoreOnError =>
      (match netDecode s.pheader s.body with
       | .error _ => .ok (mkReplay s none)
       | .ok v => .ok (mkReplay s (some v)), n)
    | .Never => (.ok (mkReplay s none), n)

/-- From src/parser.rs: `ParserBuilder`. -/
structure ParserBuilder where
  data : List Nat
  crc_check : Option CrcCheck
  network_parse : Option NetworkParse

/-- From src/parser.rs `ParserBuilder::new`. -/
def ParserBuilder.new (data : List Nat) : ParserBuilder := ⟨data, none, none⟩

/-- From src/parser.rs `ParserBuilder::always_check_crc`. -/
def ParserBuilder.always_check_crc (b : ParserBuilder) : ParserBuilder :=
  { b with crc_check := some .Always }

/-- From src/parser.rs `ParserBuilder::never_check_crc`. -/
def ParserBuilder.never_check_crc (b : ParserBuilder) : ParserBuilder :=
  { b with crc_check := some .Never }

/-- From src/parser.rs `ParserBuilder::on_error_check_crc`. -/
def ParserBuilder.on_error_check_crc (b : ParserBuilder) : ParserBuilder :=
  { b with crc_check := some .OnError }

/-- From src/parser.rs `ParserBuilder::with_crc_check`. -/
def ParserBuilder.with_crc_check (b : ParserBuilder) (check : CrcCheck) : ParserBuilder :=
  { b with crc_check := some check }

/-- From src/parser.rs `ParserBuilder::must_parse_network_data`. -/
def ParserBuilder.must_parse_network_data (b : ParserBuilder) : ParserBuilder :=
  { b with network_parse := some .Always }

/-- From src/parser.rs `ParserBuilder::never_parse_network_data`. -/
def ParserBuilder.never_parse_network_data (b : ParserBuilder) : ParserBuilder :=
  { b with network_parse := some .Never }

/-- From src/parser.rs `ParserBuilder::ignore_network_data_on_error`. -/
def ParserBuilder.ignore_network_data_on_error (b : ParserBuilder) : ParserBuilder :=
  { b with network_parse := some .IgnoreOnError }

/-- From src/parser.rs `ParserBuilder::with_network_parse`. -/
def ParserBuilder.with_network_parse (b : ParserBuilder) (p : NetworkParse) : ParserBuilder :=
  { b with network_parse := some p }

/-- From src/parser.rs `ParserBuilder::parse`: defaults `CrcCheck::OnError`
and `NetworkParse::IgnoreOnError` are applied to unset options. -/
def ParserBuilder.parse (crcFun : List Nat → Nat)
    (netDecode : PHeader → ReplayBody → Except Err NetworkFrames) (b : ParserBuilder) :
    Except Err Replay × Nat :=
  Boxcars.parse crcFun netDecode (b.crc_check.getD .OnError) (b.network_parse.getD .IgnoreOnError)
    b.data

/-! Step lemmas for the reader operations, used to evaluate the decoders
on concrete and semi-concrete inputs. -/

/-- `crc_section` under `CrcCheck::Never` passes the decoder result
through and does not invoke the CRC engine. -/
theorem crcSection_never {α : Type} (crcFun : List Nat → Nat) (w : List Nat) (c : Nat)
    (s : String) (res : Except Err α) : crcSection .Never crcFun w c s res = (res, false) := by
  cases res <;> rfl

/-- `crc_section` under `CrcCheck::Always`. -/
theorem crcSection_always {α : Type} (crcFun : List Nat → Nat) (w : List Nat) (c : Nat)
    (s : String) (res : Except Err α) :
    crcSection .Always crcFun w c s res =
      (if crcFun w ≠ c then .error (.base (.crcMismatch c (crcFun w))) else res, true) := by
  cases res <;> rfl

/-- `crc_section` under `CrcCheck::OnError` on a decoder success. -/
theorem crcSection_onError_ok {α : Type} (crcFun : List Nat → Nat) (w : List Nat) (c : Nat)
    (s : String) (v : α) : crcSection .OnError crcFun w c s (.ok v) = (.ok v, false) := rfl

/-- `crc_section` under `CrcCheck::OnError` on a decoder error. -/
theorem crcSection_onError_err {α : Type} (crcFun : List Nat → Nat) (w : List Nat) (c : Nat)
    (s : String) (e : Err) :
    crcSection (α := α) .OnError crcFun w c s (.error e) =
      (if crcFun w ≠ c then
         .error (.ctx ("Failed to parse " ++ s ++ " and crc check failed. Replay is corrupt") e)
       else .error e, true) := rfl

/-- Reduction of a framing step on success. -/
theorem stepThen_ok {α β : Type} (a : α) (st : CoreP)
    (f : α → CoreP → Except Err β × Nat) : stepThen (.ok (a, st)) f = f a st := rfl

/-- Reduction of a framing step on failure. -/
theorem stepThen_err {α β : Type} (e : Err) (f : α → CoreP → Except Err β × Nat) :
    stepThen (α := α) (.error e) f = (.error e, 0) := rfl

/-- Reduction of a CRC-checked section step on success. -/
theorem crcThen_ok {α β : Type} (a : α) (st : CoreP) (b : Bool)
    (f : α → CoreP → Except Err β × Nat) : crcThen (.ok (a, st), b) f = addCrc b (f a st) := rfl

/-- Reduction of a CRC-checked section step on failure. -/
theorem crcThen_err {α β : Type} (e : Err) (b : Bool) (f : α → CoreP → Except Err β × Nat) :
    crcThen (α := α) (.error e, b) f = (.error e, b.toNat) := rfl

/-- Reduction of a body step on success. -/
theorem ebind_ok {α β : Type} (a : α) (st : CoreP) (f : α → CoreP → Except Err (β × CoreP)) :
    ebind (.ok (a, st)) f = f a st := rfl

/-- Reduction of a body step on failure. -/
theorem ebind_err {α β : Type} (e : Err) (f : α → CoreP → Except Err (β × CoreP)) :
    ebind (α := α) (β := β) (.error e) f = .error e := rfl

/-- Reading a window whose bytes are laid out at the head of the
remaining input. -/
theorem take_exact {α : Type} (l t : List Nat) (f : List Nat → α) (n b : Nat)
    (h : l.length = n) : take n f ⟨l ++ t, b⟩ = .ok (f l, ⟨t, b + n⟩) := by
  unfold take
  rw [if_pos (by simp [List.length_append]; omega)]
  simp [List.take_left' h, List.drop_left' h]

/-- Reading a window that is exactly the whole remaining input. -/
theorem take_all {α : Type} (l : List Nat) (f : List Nat → α) (n b : Nat)
    (h : l.length = n) : take n f ⟨l, b⟩ = .ok (f l, ⟨[], b + n⟩) := by
  have := take_exact l [] f n b h
  simpa using this

/-- Viewing a window laid out at the head of the remaining input. -/
theorem view_exact (l t : List Nat) (n b : Nat) (h : l.length = n) :
    view_data n ⟨l ++ t, b⟩ = .ok (l, ⟨l ++ t, b⟩) := by
  unfold view_data
  rw [if_pos (by simp [List.length_append]; omega)]
  simp [List.take_left' h]

/-- Viewing a window that is exactly the whole remaining input. -/
theorem view_all (l : List Nat) (n b : Nat) (h : l.length = n) :
    view_data n ⟨l, b⟩ = .ok (l, ⟨l, b⟩) := by
  have := view_exact l [] n b h
  simpa using this

/-- The CRC-invocation count of `parse` is the count of `parseSections`;
the network stage never touches the CRC engine. -/
theorem parse_snd (crcFun : List Nat → Nat) (nd : PHeader → ReplayBody → Except Err NetworkFrames)
    (cc : CrcCheck) (np : NetworkParse) (data : List Nat) :
    (parse crcFun nd cc np data).snd = (parseSections crcFun cc data).snd := by
  unfold parse
  rcases h : parseSections crcFun cc data with ⟨r, n⟩
  cases r with
  | error e => simp
  | ok s =>
    cases np with
    | Always => cases nd s.pheader s.body <;> simp
    | IgnoreOnError => cases nd s.pheader s.body <;> simp
    | Never => simp

/-- A failing `parseSections` outcome is the whole parse outcome, for
every network policy. -/
theorem parse_of_sections_error (crcFun : List Nat → Nat)
    (nd : PHeader → ReplayBody → Except Err NetworkFrames) (cc : CrcCheck)
    (np : NetworkParse) (data : List Nat) (e : Err) (n : Nat)
    (h : parseSections crcFun cc data = (.error e, n)) :
    parse crcFun nd cc np data = (.error e, n) := by
  unfold parse
  rw [h]

/-- Under `CrcCheck::Never`, `parseSections` performs zero CRC
computations. -/
theorem stepThen_snd {α β : Type} (m : Except Err (α × CoreP))
    (f : α → CoreP → Except Err β × Nat) (h : ∀ a st, (f a st).snd = 0) :
    (stepThen m f).snd = 0 := by
  unfold stepThen
  cases m with
  | error e => rfl
  | ok p =>
    cases p with
    | mk a st => exact h a st

theorem crcThen_snd_false {α β : Type} (r : Except Err (α × CoreP))
    (f : α → CoreP → Except Err β × Nat) (h : ∀ a st, (f a st).snd = 0) :
    (crcThen (r, false) f).snd = 0 := by
  unfold crcThen addCrc
  cases r with
  | error e => rfl
  | ok p =>
    cases p with
    | mk a st => simp [h a st]

theorem parseSections_never_count (crcFun : List Nat → Nat) (data : List Nat) :
    (parseSections crcFun .Never data).snd = 0 := by
  unfold parseSections
  simp only [crcSection_never]
  refine stepThen_snd _ _ fun _ _ => ?_
  refine stepThen_snd _ _ fun _ _ => ?_
  refine stepThen_snd _ _ fun _ _ => ?_
  refine crcThen_snd_false _ _ fun _ _ => ?_
  refine stepThen_snd _ _ fun _ _ => ?_
  refine stepThen_snd _ _ fun _ _ => ?_
  refine stepThen_snd _ _ fun _ _ => ?_
  refine crcThen_snd_false _ _ fun _ _ => ?_
  rfl

/-- Claim C4: for every input byte buffer, `parse` terminates with either
a `Replay` value or an error; the embedding is a total function and every
outcome is one of the two constructors (no panic path exists). -/
theorem c4_parse_total (crcFun : List Nat → Nat)
    (nd : PHeader → ReplayBody → Except Err NetworkFrames) (cc : CrcCheck) (np : NetworkParse)
    (data : List Nat) :
    (∃ r, (parse crcFun nd cc np data).fst = .ok r) ∨
      (∃ e, (parse crcFun nd cc np data).fst = .error e) := by
  cases h : (parse crcFun nd cc np data).fst with
  | ok r => exact Or.inl ⟨r, rfl⟩
  | error e => exact Or.inr ⟨e, rfl⟩

/-- Claim C8: with `crc_check = Never` the CRC engine is never invoked on
any input — `crc_section` passes each section decoder's result through
unchanged with the invocation flag false, and the total invocation count
of a whole `parse` run is zero. -/
theorem c8_never_no_crc :
    (∀ (α : Type) (crcFun : List Nat → Nat) (w : List Nat) (c : Nat) (s : String)
        (res : Except Err α), crcSection .Never crcFun w c s res = (res, false)) ∧
      ∀ (crcFun : List Nat → Nat) (nd : PHeader → ReplayBody → Except Err NetworkFrames)
        (np : NetworkParse) (data : List Nat), (parse crcFun nd .Never np data).snd = 0 := by
  constructor
  · intro α crcFun w c s res
    exact crcSection_never crcFun w c s res
  · intro crcFun nd np data
    rw [parse_snd]
    exact parseSections_never_count crcFun data

/-- Claim C9: an unconfigured `ParserBuilder` parses with
`crc_check = OnError` and `network_parse = IgnoreOnError`; each builder
method overrides exactly the corresponding default. -/
theorem c9_builder_defaults (crcFun : List Nat → Nat)
    (nd : PHeader → ReplayBody → Except Err NetworkFrames) (data : List Nat) :
    ParserBuilder.parse crcFun nd (ParserBuilder.new data) =
        parse crcFun nd .OnError .IgnoreOnError data ∧
      (∀ c, ParserBuilder.parse crcFun nd ((ParserBuilder.new data).with_crc_check c) =
        parse crcFun nd c .IgnoreOnError data) ∧
      (∀ p, ParserBuilder.parse crcFun nd ((ParserBuilder.new data).with_network_parse p) =
        parse crcFun nd .OnError p data) ∧
      (∀ c p, ParserBuilder.parse crcFun nd
          (((ParserBuilder.new data).with_crc_check c).with_network_parse p) =
        parse crcFun nd c p data) ∧
      ParserBuilder.parse crcFun nd ((ParserBuilder.new data).always_check_crc) =
        parse crcFun nd .Always .IgnoreOnError data ∧
      ParserBuilder.parse crcFun nd ((ParserBuilder.new data).never_check_crc) =
        parse crcFun nd .Never .IgnoreOnError data ∧
      ParserBuilder.parse crcFun nd ((ParserBuilder.new data).on_error_check_crc) =
        parse crcFun nd .OnError .IgnoreOnError data ∧
      ParserBuilder.parse crcFun nd ((ParserBuilder.new data).must_parse_network_data) =
        parse crcFun nd .OnError .Always data ∧
      ParserBuilder.parse crcFun nd ((ParserBuilder.new data).never_parse_network_data) =
        parse crcFun nd .OnError .Never data ∧
      ParserBuilder.parse crcFun nd ((ParserBuilder.new data).ignore_network_data_on_error) =
        parse crcFun nd .OnError .IgnoreOnError data :=
  ⟨rfl, fun _ => rfl, fun _ => rfl, fun _ _ => rfl, rfl, rfl, rfl, rfl, rfl, rfl⟩

/-- Claim C10: under `CrcCheck::Always` the section decoder's result is
what is returned whenever the CRC matches (so the decoder has run to
completion, its advanced state included, before the comparison), and when
the decoder fails while the CRC mismatches, the returned error is solely
the `CrcMismatch` — independent of the decoder's error and with no
underlying cause. -/
theorem c10_always_discards_decoder_error (α : Type) (crcFun : List Nat → Nat) (w : List Nat)
    (c : Nat) (s : String) :
    (∀ res : Except Err α, crcFun w = c → crcSection .Always crcFun w c s res = (res, true)) ∧
      ∀ e : Err, crcFun w ≠ c →
        crcSection (α := α) .Always crcFun w c s (.error e) =
            (.error (.base (.crcMismatch c (crcFun w))), true) ∧
          causeOf (crcSection (α := α) .Always crcFun w c s (.error e)).fst = none ∧
          displayOf (crcSection (α := α) .Always crcFun w c s (.error e)).fst =
            some ("Crc mismatch. Expected " ++ toString c ++ " but received " ++
              toString (crcFun w)) ∧
          ∀ e' : Err, (crcSection (α := α) .Always crcFun w c s (.error e)).fst =
            (crcSection (α := α) .Always crcFun w c s (.error e')).fst := by
  constructor
  · intro res h
    rw [crcSection_always, if_neg (by simp [h])]
  · intro e h
    have hmain : crcSection (α := α) .Always crcFun w c s (.error e) =
        (.error (.base (.crcMismatch c (crcFun w))), true) := by
      rw [crcSection_always, if_pos h]
    refine ⟨hmain, ?_, ?_, ?_⟩
    · rw [hmain]; rfl
    · rw [hmain]; rfl
    · intro e'
      rw [hmain, crcSection_always, if_pos h]

/-- A minimal well-formed 21-byte header window: `major_version = 0`,
`minor_version = 0` (so no net version), empty game-type string, and a
property map immediately closed by the `"None"` key. -/
def hdrBytes : List Nat :=
  [0, 0, 0, 0] ++ ([0, 0, 0, 0] ++ ([0, 0, 0, 0] ++ ([5, 0, 0, 0] ++ [78, 111, 110, 101, 0])))

/-- A minimal well-formed 40-byte body window: ten zero list/size
prefixes (levels, keyframes, network size, debug info, tick marks,
packages, objects, names, class indices, net cache). -/
def body40 : List Nat := List.replicate 40 0

/-- The decoded value of `body40`. -/
def emptyBody : ReplayBody := ⟨[], [], [], [], [], [], [], [], [], []⟩

/-- The minimal header value decoded from `hdrBytes`. -/
def emptyHeader : PHeader :=
  { major_version := 0, minor_version := 0, net_version := none, game_type := "",
    properties := [] }

/-- Scenario input for claim C2 (modelled from the spec's tampering
scenario, the replay asset being outside src): a well-formed replay whose
stored header CRC is 2877465516 and stored body CRC is 337843175; a CRC
function that returns 2877465516 on the body window then plays the role
of the computation over the tampered bytes. -/
def c2Input : List Nat :=
  [21, 0, 0, 0] ++ ([172, 163, 130, 171] ++ (hdrBytes ++
    ([40, 0, 0, 0] ++ ([231, 19, 35, 20] ++ body40))))

/-- The replay value `c2Input` decodes to when no CRC check interferes. -/
def c2Replay : Replay :=
  { header_size := 21, header_crc := 2877465516, major_version := 0, minor_version := 0,
    net_version := none, game_type := "", properties := [], content_size := 40,
    content_crc := 337843175, network_frames := none, levels := [], keyframes := [],
    debug_info := [], tick_marks := [], packages := [], objects := [], names := [],
    class_indices := [], net_cache := [] }

/-- Witness for C10 at concrete inputs: a matching CRC passes the decoder
result through, a mismatching CRC on a failed decode yields the bare
`CrcMismatch` with no cause. -/
theorem c10_witness :
    crcSection (α := Nat) .Always (fun _ => 5) [1, 2] 5 "body" (.ok 3) = (.ok 3, true) ∧
      crcSection (α := Nat) .Always (fun _ => 5) [1, 2] 7 "body"
          (.error (.base (.listTooLarge 9))) =
        (.error (.base (.crcMismatch 7 5)), true) ∧
      causeOf (crcSection (α := Nat) .Always (fun _ => 5) [1, 2] 7 "body"
        (.error (.base (.listTooLarge 9)))).fst = none :=
  ⟨(c10_always_discards_decoder_error Nat (fun _ => 5) [1, 2] 5 "body").1 (.ok 3) (by decide),
   ((c10_always_discards_decoder_error Nat (fun _ => 5) [1, 2] 7 "body").2
     (.base (.listTooLarge 9)) (by decide)).1,
   ((c10_always_discards_decoder_error Nat (fun _ => 5) [1, 2] 7 "body").2
     (.base (.listTooLarge 9)) (by decide)).2.1⟩

/-- Claim C2: with `crc_check = Always` each framed section's CRC is
computed over its byte window and compared with the stored value: a
mismatch yields `CrcMismatch(stored, computed)`, a match passes the
decoder's result through (errors included).  On a replay whose body
window's computed CRC is 2877465516 while the stored body CRC is
337843175, `Always` reports exactly that mismatch while `OnError`
parses successfully. -/
theorem c2_crc_always :
    (∀ (α : Type) (f : List Nat → Nat) (w : List Nat) (c : Nat) (s : String)
        (res : Except Err α), f w ≠ c →
      crcSection .Always f w c s res = (.error (.base (.crcMismatch c (f w))), true)) ∧
      (∀ (α : Type) (f : List Nat → Nat) (w : List Nat) (c : Nat) (s : String)
          (res : Except Err α), f w = c → crcSection .Always f w c s res = (res, true)) ∧
      ∀ (f : List Nat → Nat) (nd : PHeader → ReplayBody → Except Err NetworkFrames),
        f hdrBytes = 2877465516 → f body40 = 2877465516 →
        displayOf (parse f nd .Always .Never c2Input).fst =
            some "Crc mismatch. Expected 337843175 but received 2877465516" ∧
          (parse f nd .OnError .Never c2Input).fst = .ok c2Replay := by
  refine ⟨?_, ?_, ?_⟩
  · intro α f w c s res h
    rw [crcSection_always, if_pos h]
  · intro α f w c s res h
    rw [crcSection_always, if_neg (by simp [h])]
  · intro f nd hH hB
    have e1 : pstep "header size" (take 4 le_i32) ⟨c2Input, 0⟩ =
        .ok ((21 : Int), ⟨[172, 163, 130, 171] ++ (hdrBytes ++
          ([40, 0, 0, 0] ++ ([231, 19, 35, 20] ++ body40))), 4⟩) := by rfl
    have e2 : pstep "header crc" (take 4 le_i32)
        ⟨[172, 163, 130, 171] ++ (hdrBytes ++
          ([40, 0, 0, 0] ++ ([231, 19, 35, 20] ++ body40))), 4⟩ =
        .ok ((-1417501780 : Int), ⟨hdrBytes ++
          ([40, 0, 0, 0] ++ ([231, 19, 35, 20] ++ body40)), 8⟩) := by rfl
    have e3 : pstep "header data" (view_data (i32ToUsize 21))
        ⟨hdrBytes ++ ([40, 0, 0, 0] ++ ([231, 19, 35, 20] ++ body40)), 8⟩ =
        .ok (hdrBytes, ⟨hdrBytes ++ ([40, 0, 0, 0] ++ ([231, 19, 35, 20] ++ body40)), 8⟩) := by
      rfl
    have eH : toErr (parse_header
        ⟨hdrBytes ++ ([40, 0, 0, 0] ++ ([231, 19, 35, 20] ++ body40)), 8⟩) =
        .ok (emptyHeader, ⟨[40, 0, 0, 0] ++ ([231, 19, 35, 20] ++ body40), 29⟩) := by rfl
    have e4 : pstep "content size" (take 4 le_i32)
        ⟨[40, 0, 0, 0] ++ ([231, 19, 35, 20] ++ body40), 29⟩ =
        .ok ((40 : Int), ⟨[231, 19, 35, 20] ++ body40, 33⟩) := by rfl
    have e5 : pstep "content crc" (take 4 le_i32) ⟨[231, 19, 35, 20] ++ body40, 33⟩ =
        .ok ((337843175 : Int), ⟨body40, 37⟩) := by rfl
    have e6 : pstep "content data" (view_data (i32ToUsize 40)) ⟨body40, 37⟩ =
        .ok (body40, ⟨body40, 37⟩) := by rfl
    have eB : parse_body ⟨body40, 37⟩ = .ok (emptyBody, ⟨[], 77⟩) := by rfl
    have hu1 : i32ToU32 (-1417501780) = 2877465516 := by decide
    have hu2 : i32ToU32 (337843175) = 337843175 := by decide
    have cs1 : crcSection .Always f hdrBytes (i32ToU32 (-1417501780)) "header"
        (toErr (parse_header
          ⟨hdrBytes ++ ([40, 0, 0, 0] ++ ([231, 19, 35, 20] ++ body40)), 8⟩)) =
        (.ok (emptyHeader, ⟨[40, 0, 0, 0] ++ ([231, 19, 35, 20] ++ body40), 29⟩), true) := by
      rw [crcSection_always, hH, hu1, if_neg (by decide), eH]
    have cs2 : crcSection .Always f body40 (i32ToU32 337843175) "body"
        (parse_body ⟨body40, 37⟩) =
        (.error (.base (.crcMismatch 337843175 2877465516)), true) := by
      rw [crcSection_always, hB, hu2, if_pos (by decide)]
    have hs : parseSections f .Always c2Input =
        (.error (.base (.crcMismatch 337843175 2877465516)), 2) := by
      unfold parseSections
      simp only [e1, e2, e3, cs1, e4, e5, e6, cs2, stepThen_ok, crcThen_ok, crcThen_err,
        addCrc]
      rfl
    have cs1o : crcSection .OnError f hdrBytes (2877465516) "header"
        (toErr (parse_header
          ⟨hdrBytes ++ ([40, 0, 0, 0] ++ ([231, 19, 35, 20] ++ body40)), 8⟩)) =
        (.ok (emptyHeader, ⟨[40, 0, 0, 0] ++ ([231, 19, 35, 20] ++ body40), 29⟩), false) := by
      rw [eH]
      exact crcSection_onError_ok _ _ _ _ _
    have cs2o : crcSection .OnError f body40 (337843175) "body"
        (parse_body ⟨body40, 37⟩) = (.ok (emptyBody, ⟨[], 77⟩), false) := by
      rw [eB]
      exact crcSection_onError_ok _ _ _ _ _
    have hso : parseSections f .OnError c2Input =
        (.ok ⟨21, 2877465516, emptyHeader, 40, 337843175, emptyBody⟩, 0) := by
      unfold parseSections
      simp only [e1, e2, e3, cs1o, e4, e5, e6, cs2o, hu1, hu2, stepThen_ok, crcThen_ok,
        addCrc]
      rfl
    constructor
    · have hp : parse f nd .Always .Never c2Input =
          (.error (.base (.crcMismatch 337843175 2877465516)), 2) := by
        unfold parse
        rw [hs]
      rw [hp]
      decide
    · have hp : parse f nd .OnError .Never c2Input =
          (.ok (mkReplay ⟨21, 2877465516, emptyHeader, 40, 337843175, emptyBody⟩ none), 0) := by
        unfold parse
        rw [hso]
      rw [hp]
      rfl

/-- Witness for C2: the concrete CRC function that computes 2877465516
on both windows of `c2Input` realizes the scenario. -/
theorem c2_crc_always_witness :
    displayOf (parse (fun _ => 2877465516) (fun _ _ => .ok ⟨[]⟩) .Always .Never c2Input).fst =
        some "Crc mismatch. Expected 337843175 but received 2877465516" ∧
      (parse (fun _ => 2877465516) (fun _ _ => .ok ⟨[]⟩) .OnError .Never c2Input).fst =
        .ok c2Replay :=
  c2_crc_always.2.2 (fun _ => 2877465516) (fun _ _ => .ok ⟨[]⟩) rfl rfl

/-- Scenario input for claim C3: a minimal well-formed replay with both
stored CRCs zero. -/
def c3Input : List Nat :=
  [21, 0, 0, 0] ++ ([0, 0, 0, 0] ++ (hdrBytes ++
    ([40, 0, 0, 0] ++ ([0, 0, 0, 0] ++ body40))))

/-- The replay value `c3Input` decodes to with network parsing skipped. -/
def c3Replay : Replay :=
  { header_size := 21, header_crc := 0, major_version := 0, minor_version := 0,
    net_version := none, game_type := "", properties := [], content_size := 40,
    content_crc := 0, network_frames := none, levels := [], keyframes := [],
    debug_info := [], tick_marks := [], packages := [], objects := [], names := [],
    class_indices := [], net_cache := [] }

/-- Claim C3: the network-parse policy is a trichotomy on
`network_frames`.  On any input whose two framed sections parse (witnessed
by a successful `Never` run), `Always` propagates a network-decoder error
as the parse result, `Never` skips network decoding entirely (the result
does not depend on the network decoder and `network_frames` is absent),
and `IgnoreOnError` turns a network-decoder error into an absent
`network_frames` while the parse still succeeds with the same header and
body data. -/
theorem c3_network_trichotomy (crcFun : List Nat → Nat) (cc : CrcCheck) (data : List Nat)
    (r : Replay) (e : Err) (v : NetworkFrames)
    (h : (parse crcFun (fun _ _ => .error e) cc .Never data).fst = .ok r) :
    r.network_frames = none ∧
      (parse crcFun (fun _ _ => .error e) cc .Always data).fst = .error e ∧
      (parse crcFun (fun _ _ => .error e) cc .IgnoreOnError data).fst = .ok r ∧
      (parse crcFun (fun _ _ => .ok v) cc .Always data).fst =
        .ok { r with network_frames := some v } ∧
      (parse crcFun (fun _ _ => .ok v) cc .IgnoreOnError data).fst =
        .ok { r with network_frames := some v } ∧
      ∀ nd nd', parse crcFun nd cc .Never data = parse crcFun nd' cc .Never data := by
  unfold parse at h ⊢
  rcases hp : parseSections crcFun cc data with ⟨res, n⟩
  rw [hp] at h
  cases res with
  | error e0 => simp at h
  | ok s =>
    simp only [] at h
    have hr : mkReplay s none = r := by
      simpa using h
    subst hr
    refine ⟨rfl, by simp, by simp, ?_, ?_, fun nd nd' => rfl⟩
    · simp only []
      rfl
    · simp only []
      rfl

/-- Reading with `take` when enough bytes remain. -/
theorem take_le {α : Type} (n : Nat) (f : List Nat → α) (l : List Nat) (b : Nat)
    (h : n ≤ l.length) : take n f ⟨l, b⟩ = .ok (f (l.take n), ⟨l.drop n, b + n⟩) := by
  unfold take
  rw [if_pos h]

/-- Iterating the keyframe record decoder `k` times consumes exactly
`12 * k` bytes and yields `k` keyframes. -/
theorem kfIter_fixed (k : Nat) : ∀ (l : List Nat) (b : Nat), 12 * k ≤ l.length →
    ∃ ks, listIter kfElem k ⟨l, b⟩ = .ok (ks, ⟨l.drop (12 * k), b + 12 * k⟩) ∧
      ks.length = k := by
  induction k with
  | zero => intro l b _; exact ⟨[], by simp [listIter], rfl⟩
  | succ k ih =>
    intro l b h
    have e1 : take 4 leNat ⟨l, b⟩ = .ok (leNat (l.take 4), ⟨l.drop 4, b + 4⟩) :=
      take_le 4 leNat l b (by omega)
    have e2 : take 4 le_i32 ⟨l.drop 4, b + 4⟩ =
        .ok (le_i32 ((l.drop 4).take 4), ⟨(l.drop 4).drop 4, b + 4 + 4⟩) :=
      take_le 4 le_i32 (l.drop 4) (b + 4) (by simp [List.length_drop]; omega)
    have e3 : take 4 le_i32 ⟨(l.drop 4).drop 4, b + 4 + 4⟩ =
        .ok (le_i32 (((l.drop 4).drop 4).take 4),
          ⟨((l.drop 4).drop 4).drop 4, b + 4 + 4 + 4⟩) :=
      take_le 4 le_i32 ((l.drop 4).drop 4) (b + 4 + 4) (by simp [List.length_drop]; omega)
    obtain ⟨ks, hit, hlen⟩ := ih (((l.drop 4).drop 4).drop 4) (b + 4 + 4 + 4)
      (by simp [List.length_drop]; omega)
    refine ⟨⟨leNat (l.take 4), le_i32 ((l.drop 4).take 4),
      le_i32 (((l.drop 4).drop 4).take 4)⟩ :: ks, ?_, by simp [hlen]⟩
    simp only [kfElem] at hit
    simp only [listIter, kfElem, mpBind, mpPure, e1, e2, e3]
    rw [hit]
    have hx : List.drop (12 * k) (List.drop 4 (List.drop 4 (List.drop 4 l))) =
        List.drop (12 * (k + 1)) l := by
      rw [List.drop_drop, List.drop_drop, List.drop_drop]
      congr 1
      ring
    have hy : b + 4 + 4 + 4 + 12 * k = b + 12 * (k + 1) := by ring
    rw [hx, hy]

/-- Claim C6: a 508-byte slice whose leading u32 is 42, followed by 42
records of (f32, i32, i32), decodes through `parse_keyframe` to exactly
42 keyframes, consuming all 508 bytes. -/
theorem c6_keyframe_slice (rest : List Nat) (b : Nat) (h : rest.length = 504) :
    ∃ ks, parse_keyframe ⟨[42, 0, 0, 0] ++ rest, b⟩ = .ok (ks, ⟨[], b + 508⟩) ∧
      ks.length = 42 := by
  obtain ⟨ks, hit, hlen⟩ := kfIter_fixed 42 rest (b + 4) (by omega)
  refine ⟨ks, ?_, hlen⟩
  unfold parse_keyframe list_of
  rw [take_exact [42, 0, 0, 0] rest leNat 4 b (by decide)]
  have hc : leNat [42, 0, 0, 0] = 42 := by decide
  simp only [hc]
  rw [if_neg (by decide), hit]
  have hdrop : rest.drop (12 * 42) = [] := by
    rw [show (12 * 42 : Nat) = 504 from rfl, ← h, List.drop_length]
  rw [hdrop]

set_option maxRecDepth 10000 in
/-- Witness for C6 on the concrete all-zero record bytes. -/
theorem c6_keyframe_slice_witness :
    ∃ ks, parse_keyframe ⟨[42, 0, 0, 0] ++ List.replicate 504 0, 0⟩ = .ok (ks, ⟨[], 508⟩) ∧
      ks.length = 42 := by
  have h0 : (List.replicate 504 (0 : Nat)).length = 504 := by rw [List.length_replicate]
  have := c6_keyframe_slice (List.replicate 504 0) 0 h0
  simpa using this

/-- The length of a string is the length of its character data. -/
theorem data_length (s : String) : s.data.length = s.length := rfl

instance exceptDecEq {e a : Type} [DecidableEq e] [DecidableEq a] : DecidableEq (Except e a) :=
  fun x y =>
    match x, y with
    | .ok u, .ok v =>
      if h : u = v then .isTrue (by rw [h]) else .isFalse (fun hc => by cases hc; exact h rfl)
    | .error u, .error v =>
      if h : u = v then .isTrue (by rw [h]) else .isFalse (fun hc => by cases hc; exact h rfl)
    | .ok _, .error _ => .isFalse (fun hc => by cases hc)
    | .error _, .ok _ => .isFalse (fun hc => by cases hc)

/-- Little-endian four-byte encoding of an unsigned 32-bit value. -/
def encodeU32 (n : Nat) : List Nat :=
  [n % 256, n / 256 % 256, n / 65536 % 256, n / 16777216 % 256]

/-- Little-endian four-byte encoding of a signed 32-bit value. -/
def encodeI32 (i : Int) : List Nat := encodeU32 ((i % (2 ^ 32 : Int)).toNat)

/-- The code points of a string, as bytes of its ASCII encoding. -/
def strBytes (s : String) : List Nat := s.data.map Char.toNat

/-- The replay encoding of an ASCII string: positive length prefix
counting the trailing null, the bytes, the null. -/
def encodeText (s : String) : List Nat :=
  encodeU32 (s.length + 1) ++ (strBytes s ++ [0])

/-- The replay encoding of one tick-mark record. -/
def encodeTickMark (x : TickMark) : List Nat := encodeText x.description ++ encodeI32 x.frame

/-- The concatenated encoding of a sequence of tick-mark records. -/
def encAll : List TickMark → List Nat
  | [] => []
  | x :: ts => encodeTickMark x ++ encAll ts

/-- A tick mark whose description is a plausible ASCII string and whose
frame fits in an i32, so that its encoding is a genuine byte record. -/
def validTick (x : TickMark) : Prop :=
  x.description.length + 1 ≤ 10 * 2 ^ 20 ∧ (∀ c ∈ x.description.data, c.toNat < 256) ∧
    -(2 ^ 31) ≤ x.frame ∧ x.frame < 2 ^ 31

instance validTick_decidable : DecidablePred validTick := fun x => by
  unfold validTick
  infer_instance

/-- Round trip of the unsigned four-byte encoding. -/
theorem leNat_encodeU32 (n : Nat) (h : n < 2 ^ 32) : leNat (encodeU32 n) = n := by
  simp [leNat, encodeU32]
  omega

/-- Round trip of the signed four-byte encoding. -/
theorem le_i32_encodeI32 (i : Int) (h1 : -(2 ^ 31) ≤ i) (h2 : i < 2 ^ 31) :
    le_i32 (encodeI32 i) = i := by
  have hm1 : (0 : Int) ≤ i % (2 ^ 32 : Int) := by omega
  have hm2 : i % (2 ^ 32 : Int) < 2 ^ 32 := by omega
  unfold le_i32 encodeI32
  rw [leNat_encodeU32 _ (by omega)]
  split <;> omega

/-- Round trip of the string encoding through `parse_text`. -/
theorem parse_text_encode (s : String) (hlen : s.length + 1 ≤ 10 * 2 ^ 20) (t : List Nat)
    (b : Nat) : parse_text ⟨encodeText s ++ t, b⟩ = .ok (s, ⟨t, b + (s.length + 5)⟩) := by
  have e1 : take 4 le_i32 ⟨encodeU32 (s.length + 1) ++ ((strBytes s ++ [0]) ++ t), b⟩ =
      .ok (le_i32 (encodeU32 (s.length + 1)), ⟨(strBytes s ++ [0]) ++ t, b + 4⟩) :=
    take_exact (encodeU32 (s.length + 1)) ((strBytes s ++ [0]) ++ t) le_i32 4 b
      (by simp [encodeU32])
  have hp : le_i32 (encodeU32 (s.length + 1)) = ((s.length + 1 : Nat) : Int) := by
    unfold le_i32
    rw [leNat_encodeU32 _ (by omega)]
    rw [if_pos (by omega)]
  have e3 : take (s.length + 1) (fun bs => bs) ⟨(strBytes s ++ [0]) ++ t, b + 4⟩ =
      .ok (strBytes s ++ [0], ⟨t, b + 4 + (s.length + 1)⟩) :=
    take_exact (strBytes s ++ [0]) t (fun bs => bs) (s.length + 1) (b + 4)
      (by simp [strBytes, data_length])
  have e4 : (strBytes s ++ [0]).take (s.length + 1 - 1) = strBytes s := by
    rw [show s.length + 1 - 1 = s.length from rfl]
    exact List.take_left' (by simp [strBytes, data_length])
  have e5 : (strBytes s).map Char.ofNat = s.data := by
    unfold strBytes
    rw [List.map_map]
    calc s.data.map (Char.ofNat ∘ Char.toNat) = s.data.map id :=
          List.map_congr_left (fun c _ => Char.ofNat_toNat c)
    _ = s.data := List.map_id _
  unfold parse_text encodeText
  rw [List.append_assoc]
  simp only [e1, hp]
  rw [if_neg (by omega), if_pos (by omega), if_neg (by omega)]
  simp only [Int.toNat_natCast, e3, e4, e5]
  have hx : b + 4 + (s.length + 1) = b + (s.length + 5) := by ring
  rw [hx]

/-- Byte length of one encoded tick-mark record. -/
theorem encodeTickMark_length (x : TickMark) :
    (encodeTickMark x).length = x.description.length + 9 := by
  simp [encodeTickMark, encodeText, encodeU32, encodeI32, strBytes, data_length]

/-- Round trip of one tick-mark record through the element decoder. -/
theorem tickElem_encode (x : TickMark) (hv : validTick x) (t : List Nat) (b : Nat) :
    tickElem ⟨encodeTickMark x ++ t, b⟩ = .ok (x, ⟨t, b + (x.description.length + 9)⟩) := by
  have e1 := parse_text_encode x.description hv.1 (encodeI32 x.frame ++ t) b
  have e2 : take 4 le_i32 ⟨encodeI32 x.frame ++ t, b + (x.description.length + 5)⟩ =
      .ok (le_i32 (encodeI32 x.frame), ⟨t, b + (x.description.length + 5) + 4⟩) :=
    take_exact (encodeI32 x.frame) t le_i32 4 (b + (x.description.length + 5))
      (by simp [encodeI32, encodeU32])
  have e3 : le_i32 (encodeI32 x.frame) = x.frame := le_i32_encodeI32 _ hv.2.2.1 hv.2.2.2
  simp only [tickElem, encodeTickMark, List.append_assoc, mpBind, mpPure, e1, e2, e3]
  have hx : b + (x.description.length + 5) + 4 = b + (x.description.length + 9) := by ring
  rw [hx]

/-- Iterating the tick-mark element decoder over an encoded sequence
yields exactly that sequence, in order, consuming its encoding. -/
theorem tickIter_encode : ∀ (ts : List TickMark) (t : List Nat) (b : Nat),
    (∀ x ∈ ts, validTick x) →
    listIter tickElem ts.length ⟨encAll ts ++ t, b⟩ = .ok (ts, ⟨t, b + (encAll ts).length⟩) := by
  intro ts
  induction ts with
  | nil => intro t b _; simp [encAll, listIter]
  | cons x ts ih =>
    intro t b hv
    have hx := hv x (by simp)
    have e1 := tickElem_encode x hx (encAll ts ++ t) b
    have e2 := ih t (b + (x.description.length + 9)) (fun y hy => hv y (by simp [hy]))
    simp only [encAll, List.append_assoc, List.length_cons, listIter, e1, e2]
    have hl : (encodeTickMark x ++ encAll ts).length =
        x.description.length + 9 + (encAll ts).length := by
      simp [encodeTickMark_length]
    rw [hl]
    have hy : b + (x.description.length + 9) + (encAll ts).length =
        b + (x.description.length + 9 + (encAll ts).length) := by ring
    rw [hy]

/-- The tick-mark list decoder on the encoding of any record sequence of
plausible count: count prefix, then the records in order. -/
theorem parse_tickmarks_encode (ts : List TickMark) (t : List Nat) (b : Nat)
    (hv : ∀ x ∈ ts, validTick x) (hc : ts.length ≤ 2 ^ 20) :
    parse_tickmarks ⟨encodeU32 ts.length ++ (encAll ts ++ t), b⟩ =
      .ok (ts, ⟨t, b + 4 + (encAll ts).length⟩) := by
  have e1 : take 4 leNat ⟨encodeU32 ts.length ++ (encAll ts ++ t), b⟩ =
      .ok (leNat (encodeU32 ts.length), ⟨encAll ts ++ t, b + 4⟩) :=
    take_exact (encodeU32 ts.length) (encAll ts ++ t) leNat 4 b (by simp [encodeU32])
  have hcnt : leNat (encodeU32 ts.length) = ts.length := leNat_encodeU32 _ (by omega)
  unfold parse_tickmarks list_of
  simp only [e1, hcnt]
  rw [if_neg (by omega)]
  exact tickIter_encode ts t (b + 4) hv

/-- The scenario tick-mark sequence: `("Team1Goal", 396)` followed by six
fillers. -/
def c7Ticks : List TickMark := ⟨"Team1Goal", 396⟩ :: List.replicate 6 ⟨"A", 0⟩

/-- The scenario byte slice: leading u32 count 7, then seven
(length-prefixed string, i32) pairs, the first being "Team1Goal" / 396. -/
def c7Bytes : List Nat :=
  [7, 0, 0, 0,
   10, 0, 0, 0, 84, 101, 97, 109, 49, 71, 111, 97, 108, 0, 140, 1, 0, 0,
   2, 0, 0, 0, 65, 0, 0, 0, 0, 0,
   2, 0, 0, 0, 65, 0, 0, 0, 0, 0,
   2, 0, 0, 0, 65, 0, 0, 0, 0, 0,
   2, 0, 0, 0, 65, 0, 0, 0, 0, 0,
   2, 0, 0, 0, 65, 0, 0, 0, 0, 0,
   2, 0, 0, 0, 65, 0, 0, 0, 0, 0]

/-- Claim C7: on a slice whose leading u32 is the record count followed
by that many (length-prefixed string, i32 frame) pairs, the tick-mark
decoder yields exactly the encoded records in input order; on the
scenario slice it yields 7 entries whose first is ("Team1Goal", 396). -/
theorem c7_tickmarks :
    (∀ (ts : List TickMark) (t : List Nat) (b : Nat), (∀ x ∈ ts, validTick x) →
       ts.length ≤ 2 ^ 20 →
       parse_tickmarks ⟨encodeU32 ts.length ++ (encAll ts ++ t), b⟩ =
         .ok (ts, ⟨t, b + 4 + (encAll ts).length⟩)) ∧
      parse_tickmarks ⟨c7Bytes, 0⟩ = .ok (c7Ticks, ⟨[], 82⟩) ∧
      c7Ticks.length = 7 ∧ c7Ticks.head? = some ⟨"Team1Goal", 396⟩ := by
  refine ⟨parse_tickmarks_encode, ?_, by decide, by decide⟩
  have hb : c7Bytes = encodeU32 c7Ticks.length ++ (encAll c7Ticks ++ []) := by decide
  rw [hb, parse_tickmarks_encode c7Ticks [] 0 (by decide) (by decide)]
  rfl

/-- Witness for C7's generic component at a concrete one-record
sequence. -/
theorem c7_tickmarks_witness :
    parse_tickmarks ⟨encodeU32 [(⟨"B", 5⟩ : TickMark)].length ++
        (encAll [⟨"B", 5⟩] ++ [9]), 1⟩ =
      .ok ([⟨"B", 5⟩], ⟨[9], 1 + 4 + (encAll [⟨"B", 5⟩]).length⟩) :=
  c7_tickmarks.1 [⟨"B", 5⟩] [9] 1 (by decide) (by decide)

/-- A context-wrapped step on a successful inner computation. -/
theorem pstep_ok {α : Type} (desc : String) (m : MP α) (st : CoreP) (r : α × CoreP)
    (h : m st = .ok r) : pstep desc m st = .ok r := by
  unfold pstep
  rw [h]

/-- A context-wrapped step on a failing inner computation. -/
theorem pstep_err {α : Type} (desc : String) (m : MP α) (st : CoreP) (e : ParseError)
    (stE : CoreP) (h : m st = .error (e, stE)) :
    pstep desc m st = .error (.ctx (errStr desc stE.bytesRead e) (.base e)) := by
  unfold pstep
  rw [h]

/-- Claim C5 (amended): the body decoder reads `network_size` as a signed
32-bit little-endian integer, converts it by 64-bit sign extension to the
slice length (`network_size as usize`), takes exactly that many bytes as
the unparsed network-data slice, and decodes the bytes remaining after
the slice as the footer tables; a short buffer yields the wrapped
`Insufficient` error for that sign-extended length. -/
theorem c5_network_slice (st : CoreP) (levels : List String) (st1 : CoreP)
    (kf : List KeyFrame) (st2 : CoreP) (n : Int) (st3 : CoreP)
    (h1 : pstep "levels" text_list st = .ok (levels, st1))
    (h2 : pstep "keyframes" parse_keyframe st1 = .ok (kf, st2))
    (h3 : pstep "network size" (take 4 le_i32) st2 = .ok (n, st3)) :
    (i32ToUsize n ≤ st3.rest.length →
      parse_body st =
          ebind (parseFooter ⟨st3.rest.drop (i32ToUsize n), st3.bytesRead + i32ToUsize n⟩)
            (fun ft st4 => .ok (⟨levels, kf, ft.debug_info, ft.tick_marks, ft.packages,
              ft.objects, ft.names, ft.class_indices, ft.net_cache,
              st3.rest.take (i32ToUsize n)⟩, st4)) ∧
        (st3.rest.take (i32ToUsize n)).length = i32ToUsize n) ∧
      (st3.rest.length < i32ToUsize n →
        parse_body st = .error (.ctx (errStr "network data" st3.bytesRead
          (.insufficient (i32ToUsize n) st3.rest.length))
          (.base (.insufficient (i32ToUsize n) st3.rest.length)))) := by
  constructor
  · intro hle
    constructor
    · have e4 : pstep "network data" (take (i32ToUsize n) (fun d => d)) st3 =
          .ok (st3.rest.take (i32ToUsize n),
            ⟨st3.rest.drop (i32ToUsize n), st3.bytesRead + i32ToUsize n⟩) := by
        unfold pstep take
        rw [if_pos hle]
      unfold parse_body
      simp only [h1, h2, h3, e4, ebind]
    · rw [List.length_take, Nat.min_eq_left hle]
  · intro hgt
    have e4 : pstep "network data" (take (i32ToUsize n) (fun d => d)) st3 =
        .error (.ctx (errStr "network data" st3.bytesRead
          (.insufficient (i32ToUsize n) st3.rest.length))
          (.base (.insufficient (i32ToUsize n) st3.rest.length))) := by
      unfold pstep take
      rw [if_neg (by omega)]
    unfold parse_body
    simp only [h1, h2, h3, e4, ebind]

/-- Counterexample to claim C5 as stated: the claim's unsigned 32-bit
reading of the length prefix disagrees with the code on the 12-byte body
whose network-size bytes are `00 00 00 80` — the code sign-extends the
i32 `-2^31` to a 2^64 - 2^31 byte request, the claim's reading requests
2^31 bytes, and the resulting errors differ. -/
theorem c5_counterexample :
    parse_body ⟨[0, 0, 0, 0, 0, 0, 0, 0, 0, 0, 0, 128], 0⟩ ≠
      parse_body_claimU32 ⟨[0, 0, 0, 0, 0, 0, 0, 0, 0, 0, 0, 128], 0⟩ := by
  decide

/-- Witness for C5 on the empty 40-byte body: the slice is exactly the
sign-extended length and the footer decodes the remainder. -/
theorem c5_network_slice_witness :
    parse_body ⟨body40, 37⟩ =
        ebind (parseFooter ⟨(List.replicate 28 (0 : Nat)).drop (i32ToUsize 0),
            49 + i32ToUsize 0⟩)
          (fun ft st4 => .ok (⟨[], [], ft.debug_info, ft.tick_marks, ft.packages,
            ft.objects, ft.names, ft.class_indices, ft.net_cache,
            (List.replicate 28 (0 : Nat)).take (i32ToUsize 0)⟩, st4)) ∧
      ((List.replicate 28 (0 : Nat)).take (i32ToUsize 0)).length = i32ToUsize 0 :=
  (c5_network_slice ⟨body40, 37⟩ [] ⟨List.replicate 36 0, 41⟩ [] ⟨List.replicate 32 0, 45⟩ 0
    ⟨List.replicate 28 0, 49⟩ rfl rfl rfl).1 (by decide)

/-- A length-prefixed list with count zero consumes its four count bytes
and yields the empty list. -/
theorem list_of_zero {α : Type} (f : MP α) (t : List Nat) (b : Nat) :
    list_of f ⟨[0, 0, 0, 0] ++ t, b⟩ = .ok ([], ⟨t, b + 4⟩) := by
  unfold list_of
  rw [take_exact [0, 0, 0, 0] t leNat 4 b (by decide)]
  simp only [show leNat [0, 0, 0, 0] = 0 from by decide]
  rw [if_neg (by decide)]
  rfl

/-- A zero length prefix decodes to the empty string. -/
theorem parse_text_zero (t : List Nat) (b : Nat) :
    parse_text ⟨[0, 0, 0, 0] ++ t, b⟩ = .ok ("", ⟨t, b + 4⟩) := by
  unfold parse_text
  rw [take_exact [0, 0, 0, 0] t le_i32 4 b (by decide)]
  simp only [show le_i32 [0, 0, 0, 0] = 0 from by decide]
  simp

/-- The nine bytes `05 00 00 00 "None" 00` decode to the string
`"None"`. -/
theorem parse_text_none (t : List Nat) (b : Nat) :
    parse_text ⟨[5, 0, 0, 0] ++ ([78, 111, 110, 101, 0] ++ t), b⟩ =
      .ok ("None", ⟨t, b + 9⟩) := by
  unfold parse_text
  rw [take_exact [5, 0, 0, 0] ([78, 111, 110, 101, 0] ++ t) le_i32 4 b (by decide)]
  simp only [show le_i32 [5, 0, 0, 0] = 5 from by decide]
  rw [if_neg (by decide), if_pos (by decide), if_neg (by decide),
    show ((5 : Int)).toNat = 5 from rfl,
    take_exact [78, 111, 110, 101, 0] t (fun bs => bs) 5 (b + 4) (by decide)]
  have hx : b + 4 + 5 = b + 9 := by ring
  rw [hx]
  rfl

/-- A property map opened directly by the `"None"` key decodes to the
empty map, consuming the key's nine bytes. -/
theorem parseProps_none (n : Nat) (t : List Nat) (b : Nat) :
    parseProps (n + 1) ⟨[5, 0, 0, 0] ++ ([78, 111, 110, 101, 0] ++ t), b⟩ =
      .ok ([], ⟨t, b + 9⟩) := by
  simp only [parseProps, mpBind, parse_text_none]
  simp [mpPure]

/-- The minimal 21-byte header window decodes to `emptyHeader` wherever
it sits in the input. -/
theorem parse_header_min (t : List Nat) (b : Nat) :
    parse_header ⟨hdrBytes ++ t, b⟩ = .ok (emptyHeader, ⟨t, b + 21⟩) := by
  have t1 : take 4 leNat ⟨[0, 0, 0, 0] ++ ([0, 0, 0, 0] ++ ([0, 0, 0, 0] ++
      ([5, 0, 0, 0] ++ ([78, 111, 110, 101, 0] ++ t)))), b⟩ =
      .ok (0, ⟨[0, 0, 0, 0] ++ ([0, 0, 0, 0] ++ ([5, 0, 0, 0] ++
        ([78, 111, 110, 101, 0] ++ t))), b + 4⟩) := by
    rw [take_exact [0, 0, 0, 0] ([0, 0, 0, 0] ++ ([0, 0, 0, 0] ++ ([5, 0, 0, 0] ++
      ([78, 111, 110, 101, 0] ++ t)))) leNat 4 b (by decide)]
    rfl
  have t2 : take 4 leNat ⟨[0, 0, 0, 0] ++ ([0, 0, 0, 0] ++ ([5, 0, 0, 0] ++
      ([78, 111, 110, 101, 0] ++ t))), b + 4⟩ =
      .ok (0, ⟨[0, 0, 0, 0] ++ ([5, 0, 0, 0] ++ ([78, 111, 110, 101, 0] ++ t)), b + 4 + 4⟩) := by
    rw [take_exact [0, 0, 0, 0] ([0, 0, 0, 0] ++ ([5, 0, 0, 0] ++
      ([78, 111, 110, 101, 0] ++ t))) leNat 4 (b + 4) (by decide)]
    rfl
  have tg : (if 868 ≤ (0 : Nat) ∧ 18 ≤ (0 : Nat) then
      mpBind (take 4 leNat) fun v => mpPure (some v) else mpPure (none : Option Nat)) =
      mpPure (none : Option Nat) := by
    rw [if_neg (by decide)]
  have t3 := parse_text_zero ([5, 0, 0, 0] ++ ([78, 111, 110, 101, 0] ++ t)) (b + 4 + 4)
  unfold parse_header hdrBytes
  simp only [List.append_assoc, mpBind, mpPure, t1, t2, tg, t3, parseProps_none]
  have hx : b + 4 + 4 + 4 + 9 = b + 21 := by ring
  rw [hx]
  rfl

/-- Scenario body for claim C1 (modelled from the spec's fuzz scenario,
the fuzz asset being outside src): empty levels and keyframes, a
1010841-byte network-data slice, then the debug-info count 4294967295 —
implausibly large — as the final four bytes. -/
def c1Body : List Nat :=
  [0, 0, 0, 0] ++ ([0, 0, 0, 0] ++ ([153, 108, 15, 0] ++
    (List.replicate 1010841 0 ++ [255, 255, 255, 255])))

/-- Scenario input for claim C1: minimal valid header, stored CRCs zero,
and `c1Body` as the body window, sized so the debug-info failure offset
is exactly 1010894. -/
def c1Input : List Nat :=
  [21, 0, 0, 0] ++ ([0, 0, 0, 0] ++ (hdrBytes ++ ([169, 108, 15, 0] ++
    ([0, 0, 0, 0] ++ c1Body))))

/-- The wrapped decoder error `c1Body` produces. -/
def c1Err : Err :=
  .ctx (errStr "debug info" 1010894 (.listTooLarge 4294967295))
    (.base (.listTooLarge 4294967295))

/-- The body decoder fails on `c1Body` with the wrapped oversized
debug-info list error at offset 1010894. -/
theorem c1_body_err : parse_body ⟨c1Body, 37⟩ = .error c1Err := by
  have b1 : pstep "levels" text_list ⟨c1Body, 37⟩ =
      .ok ([], ⟨[0, 0, 0, 0] ++ ([153, 108, 15, 0] ++
        (List.replicate 1010841 0 ++ [255, 255, 255, 255])), 41⟩) :=
    pstep_ok _ _ _ _ (list_of_zero parse_text ([0, 0, 0, 0] ++ ([153, 108, 15, 0] ++
      (List.replicate 1010841 0 ++ [255, 255, 255, 255]))) 37)
  have b2 : pstep "keyframes" parse_keyframe ⟨[0, 0, 0, 0] ++ ([153, 108, 15, 0] ++
      (List.replicate 1010841 0 ++ [255, 255, 255, 255])), 41⟩ =
      .ok ([], ⟨[153, 108, 15, 0] ++ (List.replicate 1010841 0 ++ [255, 255, 255, 255]), 45⟩) :=
    pstep_ok _ _ _ _ (list_of_zero kfElem ([153, 108, 15, 0] ++
      (List.replicate 1010841 0 ++ [255, 255, 255, 255])) 41)
  have b3 : pstep "network size" (take 4 le_i32) ⟨[153, 108, 15, 0] ++
      (List.replicate 1010841 0 ++ [255, 255, 255, 255]), 45⟩ =
      .ok ((1010841 : Int), ⟨List.replicate 1010841 0 ++ [255, 255, 255, 255], 49⟩) :=
    pstep_ok _ _ _ _ (by
      rw [take_exact [153, 108, 15, 0] (List.replicate 1010841 0 ++ [255, 255, 255, 255])
        le_i32 4 45 (by decide)]
      rfl)
  have b4 : pstep "network data" (take (i32ToUsize 1010841) (fun d => d))
      ⟨List.replicate 1010841 0 ++ [255, 255, 255, 255], 49⟩ =
      .ok (List.replicate 1010841 0, ⟨[255, 255, 255, 255], 1010890⟩) :=
    pstep_ok _ _ _ _ (by
      rw [show i32ToUsize 1010841 = 1010841 from by decide]
      rw [take_exact (List.replicate 1010841 0) [255, 255, 255, 255] (fun d => d) 1010841 49
        (List.length_replicate 1010841 0)])
  have b5 : pstep "debug info" parse_debuginfo ⟨[255, 255, 255, 255], 1010890⟩ =
      .error (.ctx (errStr "debug info" 1010894 (.listTooLarge 4294967295))
        (.base (.listTooLarge 4294967295))) :=
    pstep_err _ _ _ (.listTooLarge 4294967295) ⟨[], 1010894⟩ (by decide)
  have bF : parseFooter ⟨[255, 255, 255, 255], 1010890⟩ = .error
      (.ctx (errStr "debug info" 1010894 (.listTooLarge 4294967295))
        (.base (.listTooLarge 4294967295))) := by
    unfold parseFooter
    rw [b5]
    rfl
  unfold parse_body
  rw [b1, ebind_ok]
  rw [b2, ebind_ok]
  rw [b3, ebind_ok]
  rw [b4, ebind_ok]
  rw [bF, ebind_err]
  rfl

/-- On the C1 scenario input under `OnError` with a mismatching body
CRC, the section phase ends with the corrupt-replay wrap around the
oversized debug-info error, after exactly one CRC computation. -/
theorem parseSections_c1OnError (f : List Nat → Nat) (hcrc : f c1Body ≠ 0) :
    parseSections f .OnError c1Input =
      (.error (.ctx "Failed to parse body and crc check failed. Replay is corrupt" c1Err),
        1) := by
  have hc1len : c1Body.length = 1010857 := by
    unfold c1Body
    rw [List.length_append, List.length_append, List.length_append, List.length_append,
      List.length_replicate]
    rfl
  have f1 : pstep "header size" (take 4 le_i32) ⟨c1Input, 0⟩ =
      .ok ((21 : Int), ⟨[0, 0, 0, 0] ++ (hdrBytes ++ ([169, 108, 15, 0] ++
        ([0, 0, 0, 0] ++ c1Body))), 4⟩) :=
    pstep_ok _ _ _ _ (take_exact [21, 0, 0, 0] ([0, 0, 0, 0] ++ (hdrBytes ++
      ([169, 108, 15, 0] ++ ([0, 0, 0, 0] ++ c1Body)))) le_i32 4 0 (by decide))
  have f2 : pstep "header crc" (take 4 le_i32) ⟨[0, 0, 0, 0] ++ (hdrBytes ++
      ([169, 108, 15, 0] ++ ([0, 0, 0, 0] ++ c1Body))), 4⟩ =
      .ok ((0 : Int), ⟨hdrBytes ++ ([169, 108, 15, 0] ++ ([0, 0, 0, 0] ++ c1Body)), 8⟩) :=
    pstep_ok _ _ _ _ (take_exact [0, 0, 0, 0] (hdrBytes ++ ([169, 108, 15, 0] ++
      ([0, 0, 0, 0] ++ c1Body))) le_i32 4 4 (by decide))
  have f3 : pstep "header data" (view_data (i32ToUsize 21)) ⟨hdrBytes ++
      ([169, 108, 15, 0] ++ ([0, 0, 0, 0] ++ c1Body)), 8⟩ =
      .ok (hdrBytes, ⟨hdrBytes ++ ([169, 108, 15, 0] ++ ([0, 0, 0, 0] ++ c1Body)), 8⟩) :=
    pstep_ok _ _ _ _ (view_exact hdrBytes ([169, 108, 15, 0] ++ ([0, 0, 0, 0] ++ c1Body))
      (i32ToUsize 21) 8 (by decide))
  have fH : toErr (parse_header ⟨hdrBytes ++ ([169, 108, 15, 0] ++
      ([0, 0, 0, 0] ++ c1Body)), 8⟩) =
      .ok (emptyHeader, ⟨[169, 108, 15, 0] ++ ([0, 0, 0, 0] ++ c1Body), 29⟩) := by
    rw [parse_header_min ([169, 108, 15, 0] ++ ([0, 0, 0, 0] ++ c1Body)) 8]
    rfl
  have cs1 : crcSection .OnError f hdrBytes (i32ToU32 0) "header"
      (toErr (parse_header ⟨hdrBytes ++ ([169, 108, 15, 0] ++
        ([0, 0, 0, 0] ++ c1Body)), 8⟩)) =
      (.ok (emptyHeader, ⟨[169, 108, 15, 0] ++ ([0, 0, 0, 0] ++ c1Body), 29⟩), false) := by
    rw [fH]
    exact crcSection_onError_ok _ _ _ _ _
  have f4 : pstep "content size" (take 4 le_i32) ⟨[169, 108, 15, 0] ++
      ([0, 0, 0, 0] ++ c1Body), 29⟩ =
      .ok ((1010857 : Int), ⟨[0, 0, 0, 0] ++ c1Body, 33⟩) :=
    pstep_ok _ _ _ _ (take_exact [169, 108, 15, 0] ([0, 0, 0, 0] ++ c1Body) le_i32 4 29
      (by decide))
  have f5 : pstep "content crc" (take 4 le_i32) ⟨[0, 0, 0, 0] ++ c1Body, 33⟩ =
      .ok ((0 : Int), ⟨c1Body, 37⟩) :=
    pstep_ok _ _ _ _ (take_exact [0, 0, 0, 0] c1Body le_i32 4 33 (by decide))
  have f6 : pstep "content data" (view_data (i32ToUsize 1010857)) ⟨c1Body, 37⟩ =
      .ok (c1Body, ⟨c1Body, 37⟩) :=
    pstep_ok _ _ _ _ (view_all c1Body (i32ToUsize 1010857) 37
      (by rw [show i32ToUsize 1010857 = 1010857 from by decide]; exact hc1len))
  have hcrc2 : f c1Body ≠ i32ToU32 0 := by
    rw [show i32ToU32 0 = 0 from by decide]
    exact hcrc
  have csB : crcSection .OnError f c1Body (i32ToU32 0) "body"
      (parse_body ⟨c1Body, 37⟩) =
      (.error (.ctx "Failed to parse body and crc check failed. Replay is corrupt" c1Err),
        true) := by
    rw [c1_body_err, crcSection_onError_err, if_pos hcrc2]
    decide
  unfold parseSections
  rw [f1, stepThen_ok]
  rw [f2, stepThen_ok]
  rw [f3, stepThen_ok]
  rw [cs1, crcThen_ok]
  rw [f4, stepThen_ok]
  rw [f5, stepThen_ok]
  rw [f6, stepThen_ok]
  rw [csB, crcThen_err]
  rfl

/-- Claim C1: with `crc_check = OnError` the CRC is computed only when
the section decoder fails — a decoder success is returned with no CRC
computed; on a decoder error with mismatching CRC the error is wrapped
in the context "Failed to parse {section} and crc check failed. Replay is
corrupt" with the original error as its cause, and with matching CRC the
decoder's error is surfaced unchanged.  On the scenario input whose body
claims a debug-info list of size 4294967295 (and whose stored body CRC 0
mismatches), the top-level message is exactly the corrupt-replay text and
the cause reads "Could not decode replay debug info at offset (1010894):
list of size 4294967295 is too large". -/
theorem c1_crc_on_error :
    (∀ (α : Type) (f : List Nat → Nat) (w : List Nat) (c : Nat) (s : String) (v : α),
        crcSection .OnError f w c s (.ok v) = (.ok v, false)) ∧
      (∀ (α : Type) (f : List Nat → Nat) (w : List Nat) (c : Nat) (s : String) (e : Err),
        f w ≠ c →
          crcSection (α := α) .OnError f w c s (.error e) =
              (.error (.ctx ("Failed to parse " ++ s ++
                " and crc check failed. Replay is corrupt") e), true) ∧
            causeOf (crcSection (α := α) .OnError f w c s (.error e)).fst = some e) ∧
      (∀ (α : Type) (f : List Nat → Nat) (w : List Nat) (c : Nat) (s : String) (e : Err),
        f w = c →
          crcSection (α := α) .OnError f w c s (.error e) = (.error e, true)) ∧
      ∀ (f : List Nat → Nat) (nd : PHeader → ReplayBody → Except Err NetworkFrames),
        f c1Body ≠ 0 →
          displayOf (parse f nd .OnError .Never c1Input).fst =
              some "Failed to parse body and crc check failed. Replay is corrupt" ∧
            (causeOf (parse f nd .OnError .Never c1Input).fst).map Err.display =
              some "Could not decode replay debug info at offset (1010894): list of size 4294967295 is too large" := by
  refine ⟨?_, ?_, ?_, ?_⟩
  · intro α f w c s v
    exact crcSection_onError_ok f w c s v
  · intro α f w c s e h
    have hm : crcSection (α := α) .OnError f w c s (.error e) =
        (.error (.ctx ("Failed to parse " ++ s ++
          " and crc check failed. Replay is corrupt") e), true) := by
      rw [crcSection_onError_err, if_pos h]
    exact ⟨hm, by rw [hm]; rfl⟩
  · intro α f w c s e h
    rw [crcSection_onError_err, if_neg (by simp [h])]
  · intro f nd hcrc
    have hp : parse f nd .OnError .Never c1Input =
        (.error (.ctx "Failed to parse body and crc check failed. Replay is corrupt" c1Err),
          1) :=
      parse_of_sections_error f nd .OnError .Never c1Input _ 1
        (parseSections_c1OnError f hcrc)
    constructor
    · rw [hp]
      rfl
    · rw [hp]
      decide

/-- Witness for C1: the constant CRC function 1 mismatches the stored
body CRC 0 of the scenario input, realizing the corrupt-replay wrap with
the oversized debug-info cause. -/
theorem c1_crc_on_error_witness :
    displayOf (parse (fun _ => 1) (fun _ _ => .ok ⟨[]⟩) .OnError .Never c1Input).fst =
        some "Failed to parse body and crc check failed. Replay is corrupt" ∧
      (causeOf (parse (fun _ => 1) (fun _ _ => .ok ⟨[]⟩) .OnError .Never
          c1Input).fst).map Err.display =
        some "Could not decode replay debug info at offset (1010894): list of size 4294967295 is too large" :=
  c1_crc_on_error.2.2.2 (fun _ => 1) (fun _ _ => .ok ⟨[]⟩) (by decide)

set_option maxHeartbeats 2000000 in
/-- Witness for C3 on a concrete minimal replay: the `Never` run
succeeds, and the three policies behave as the trichotomy states. -/
theorem c3_network_trichotomy_witness :
    c3Replay.network_frames = none ∧
      (parse (fun _ => 0) (fun _ _ => .error (.base .outOfFuel)) .Never .Always c3Input).fst =
        .error (.base .outOfFuel) ∧
      (parse (fun _ => 0) (fun _ _ => .error (.base .outOfFuel)) .Never .IgnoreOnError
          c3Input).fst = .ok c3Replay ∧
      (parse (fun _ => 0) (fun _ _ => .ok ⟨[7]⟩) .Never .Always c3Input).fst =
        .ok { c3Replay with network_frames := some ⟨[7]⟩ } ∧
      (parse (fun _ => 0) (fun _ _ => .ok ⟨[7]⟩) .Never .IgnoreOnError c3Input).fst =
        .ok { c3Replay with network_frames := some ⟨[7]⟩ } ∧
      ∀ nd nd', parse (fun _ => 0) nd .Never .Never c3Input =
        parse (fun _ => 0) nd' .Never .Never c3Input :=
  c3_network_trichotomy (fun _ => 0) .Never c3Input c3Replay (.base .outOfFuel) ⟨[7]⟩ rfl

end Boxcars
